import Mathlib

/-!
# Verification of the Tests-Lib process-supervised test execution engine

A shallow embedding in Lean 4 of the core of the repository
(`src/run.rs`, `src/test_manager.rs`): the process supervisor's `wait`
with its pipe-drain tasks, the exit-disposition classifier
`Test::on_validate`, template instantiation `TestTemplate::instantiate`,
the run protocol `Test::run`, the manager's `reinstantiate_test`, and the
external collaborators `compile` and `check_valgrind_leaks`.

Modelling conventions:
* Machine integers are `Nat`; a raw Unix wait status is a `Nat` and is
  decoded exactly as `std::process::ExitStatus` decodes it on Unix
  (`WIFEXITED`, `WEXITSTATUS`, `WIFSIGNALED`, `WTERMSIG`).
* Captured byte streams are modelled as `String` (the code only ever
  inspects them through `String::from_utf8_lossy`, which is the identity
  on the ASCII text all the relevant checks look for).
* A Rust `panic!` / `.unwrap()` failure is `Option.none` (or
  `Except.error` where the source itself carries a `Result`).
* The asynchronous structure of `wait` and `run` is modelled by explicit
  event traces recording, in program order, the await points the source
  passes through.
-/

/-- Sentinel statuses manufactured by the supervisor (`enum Status` in
`run.rs`).  The discriminants are raw wait statuses: the exit code is
stored shifted left by 8 bits, which is where `WEXITSTATUS` reads it. -/
def Status.Timeout : Nat := 124 * 256

def Status.Sigint : Nat := 130 * 256

def Status.Sigabrt : Nat := 134 * 256

def Status.Sigkill : Nat := 137 * 256

def Status.Sigsegv : Nat := 139 * 256

def Status.Sigpipe : Nat := 141 * 256

/-- `libc::SIGSEGV` on Linux. -/
def SIGSEGV : Nat := 11

/-- `libc::SIGABRT` on Linux. -/
def SIGABRT : Nat := 6

/-- `ExitStatus::code()` on Unix: `Some(WEXITSTATUS(s))` when
`WIFEXITED(s)`, i.e. when the low 7 bits are zero. -/
def ExitStatus.code (s : Nat) : Option Nat :=
  if s % 128 = 0 then some (s / 256 % 256) else none

/-- `ExitStatusExt::signal()` on Unix: `Some(WTERMSIG(s))` when
`WIFSIGNALED(s)`, i.e. when the low 7 bits are neither 0 (exited) nor
0x7f (stopped). -/
def ExitStatus.signal (s : Nat) : Option Nat :=
  if s % 128 ≠ 0 ∧ s % 128 ≠ 127 then some (s % 128) else none

deriving instance DecidableEq for Except

/-- `Vec<u8>::windows`-style substring search: does `pat` occur as a
contiguous run inside the second list? -/
def listContains (pat : List Char) : List Char → Bool
  | [] => pat.isEmpty
  | c :: rest => pat.isPrefixOf (c :: rest) || listContains pat rest

/-- `str::contains` on our `String` model. -/
def strContains (hay pat : String) : Bool :=
  listContains pat.toList hay.toList

/-- `ProcessOutput` from `run.rs`: captured stdout and stderr plus the
`Result<ExitStatus, io::Error>` of waiting for the child.  The raw wait
status is a `Nat`, the error side is the error's message. -/
structure ProcessOutput where
  stdout : String
  stderr : String
  status : Except String Nat
deriving DecidableEq

/-- One `pipe.read(&mut temp_buf)` outcome observed by a drain task:
`chunk d` is `Ok(n)` delivering the bytes `d` (with `n = d.length`, so an
empty chunk is the zero-length end-of-stream read), `fail` is `Err(_)`. -/
inductive ReadEvent where
  | chunk (data : String)
  | fail
deriving DecidableEq

/-- `pipe_reader` from `run.rs`: accumulate chunks until the first
zero-length read (`Ok(0)`) or read error breaks the `while let Ok(n)`
loop, and return the buffer. -/
def pipe_reader : List ReadEvent → String
  | [] => ""
  | ReadEvent.chunk d :: rest => if d.isEmpty then "" else d ++ pipe_reader rest
  | ReadEvent.fail :: _ => ""

/-- A drain task completes exactly when its stream reaches a zero-length
read or a read error (the two exits of `pipe_reader`'s loop). -/
def terminated : List ReadEvent → Bool
  | [] => false
  | ReadEvent.chunk d :: rest => d.isEmpty || terminated rest
  | ReadEvent.fail :: _ => true

/-- Await points `TestSpawner::wait` passes through, in program order. -/
inductive WaitEvent where
  | waitChild
  | killChild
  | reapChild
  | joinStdout
  | joinStderr
  | assembleResult
deriving DecidableEq

/-- `TestSpawner::wait` from `run.rs`.  `timedOut` is the outcome of the
`tokio::time::timeout` race (`true` = the child did not terminate within
`finish_timeout`); `childStatus` is what `child.wait()` returned on the
natural path.  On timeout the child is killed and reaped (their `unwrap`s
are modelled as succeeding) and the synthetic `Status::Timeout` raw
status is substituted.  Then both drain tasks are awaited and the
`ProcessOutput` is assembled.  Returns the output together with the trace
of await points in program order. -/
def TestSpawner.wait (timedOut : Bool) (childStatus : Except String Nat)
    (outStream errStream : List ReadEvent) : ProcessOutput × List WaitEvent :=
  let result : Except String Nat :=
    if timedOut then Except.ok Status.Timeout else childStatus
  let stdout := pipe_reader outStream
  let stderr := pipe_reader errStream
  (⟨stdout, stderr, result⟩,
    (if timedOut then
      [WaitEvent.waitChild, WaitEvent.killChild, WaitEvent.reapChild]
     else [WaitEvent.waitChild])
      ++ [WaitEvent.joinStdout, WaitEvent.joinStderr, WaitEvent.assembleResult])

/-- `String::from_utf8_lossy(..).to_lowercase().contains("in use")` from
`Test::on_validate` (ASCII lowercasing; the needle is pure ASCII). -/
def hasInUse (stderr : String) : Bool :=
  listContains "in use".toList (stderr.toList.map Char.toLower)

/-- `Test::on_validate` from `test_manager.rs`: the exit-disposition
classifier.  Returns `none` where the source panics (an `Err` wait status,
or a disposition that is neither exited nor signaled, on which
`status.signal().unwrap()` panics). -/
def Test.on_validate (test_output : ProcessOutput) : Option Bool :=
  if hasInUse test_output.stderr then
    some false
  else
    match test_output.status with
    | Except.ok status =>
      match ExitStatus.code status with
      | some code =>
        if code = 0 ∨ code = 1 then some true
        else if code = Status.Timeout then some false
        else some true
      | none =>
        match ExitStatus.signal status with
        | some signal_code =>
          if signal_code = SIGSEGV then some false
          else if signal_code = SIGABRT then some false
          else some true
        | none => none
    | Except.error _ => none

/-- `CommunicateOutput` from `test_manager.rs`: the byte chunks exchanged
with the process plus an optional I/O error (its message). -/
structure CommunicateOutput where
  output : List String
  error : Option String

/-- The `TestAgent` trait: the two capabilities a pluggable agent
provides.  `validate (args) (communicate_output) (output) (cwd)` and
`communicate (read_timeout) (port) (process_id)`. -/
structure TestAgent where
  validate : List String → Option CommunicateOutput → ProcessOutput → String → Bool
  communicate : Nat → String → Option Int → CommunicateOutput

/-- The open-brace character of the port placeholder. -/
def lbrace : Char := '\x7b'

/-- The close-brace character of the port placeholder. -/
def rbrace : Char := '\x7d'

/-- The port placeholder literal searched for in `cmd_args_template`:
the two-character string open-brace close-brace. -/
def placeholder : String := String.mk [lbrace, rbrace]

/-- `str::replace` specialised to the two-character port placeholder, as
called in `TestTemplate::instantiate`: every non-overlapping occurrence
of the placeholder, scanned left to right, is replaced by `rep`. -/
def replace_port (rep : String) : List Char → List Char
  | [] => []
  | [c] => [c]
  | c1 :: c2 :: rest =>
    if c1 = lbrace ∧ c2 = rbrace then rep.toList ++ replace_port rep rest
    else c1 :: replace_port rep (c2 :: rest)

/-- `s.replace("{}", rep)` on our `String` model. -/
def str_replace_port (s rep : String) : String :=
  String.mk (replace_port rep s.toList)

/-- `TestTemplate` from `test_manager.rs` (the factory is a function the
template owns). -/
structure TestTemplate where
  name : String
  cmd_args_template : String
  test_factory : Unit → TestAgent
  timeout : Nat
  valgrind : Bool
  log_output : Bool
  require_communicator : Bool
  operation_timeout : Nat

/-- `Test` from `test_manager.rs`: a template resolved against a port. -/
structure Test where
  name : String
  cmd_args : List String
  test : TestAgent
  timeout : Nat
  log_output : Bool
  require_communicator : Bool
  operation_timeout : Nat
  port : Nat

/-- Worker for `split_whitespace`: `cur` is the current token,
reversed. -/
def split_whitespace_aux (cur : List Char) : List Char → List String
  | [] => if cur.isEmpty then [] else [String.mk cur.reverse]
  | c :: rest =>
    if c.isWhitespace then
      if cur.isEmpty then split_whitespace_aux [] rest
      else String.mk cur.reverse :: split_whitespace_aux [] rest
    else split_whitespace_aux (c :: cur) rest

/-- Rust's `str::split_whitespace`: the maximal whitespace-free tokens of
the string, in order (empty tokens between consecutive separators are
dropped). -/
def split_whitespace (s : String) : List String :=
  split_whitespace_aux [] s.toList

/-- The fixed valgrind argument vector built in
`TestTemplate::instantiate` when the `valgrind` flag is set. -/
def valgrind_args (name : String) : List String :=
  ["valgrind", "--leak-check=full", "--tool=memcheck",
   "--show-leak-kinds=all", "--track-origins=yes", "--verbose",
   "--error-exitcode=1", "-v", "--log-file=valgrind - " ++ name]

/-- `TestTemplate::instantiate` from `test_manager.rs`.  `none` models the
three sanity-check `panic!`s; otherwise the port placeholder is
substituted (only if present), the string is tokenized on whitespace and
the valgrind arguments are prepended when the flag is set. -/
def TestTemplate.instantiate (t : TestTemplate) (port : Option Nat) : Option Test :=
  if t.require_communicator = true ∧ port = none then none
  else if t.require_communicator = true ∧ t.operation_timeout = 0 then none
  else if strContains t.cmd_args_template placeholder = true ∧ port = none then none
  else
    let p := port.getD 0
    let cmd_args :=
      if strContains t.cmd_args_template placeholder then
        str_replace_port t.cmd_args_template (toString p)
      else
        t.cmd_args_template
    let cmd_args := split_whitespace cmd_args
    let cmd_args :=
      if t.valgrind then valgrind_args t.name ++ cmd_args else cmd_args
    some ⟨t.name, cmd_args, t.test_factory (), t.timeout, t.log_output,
          t.require_communicator, t.operation_timeout, p⟩

/-- The optional communication phase of `Test::run`: when the template
requires a communicator, the agent's `communicate` is called with the
operation timeout, the decimal port and the child's process id. -/
def Test.comm_output (t : Test) (pid : Option Int) : Option CommunicateOutput :=
  if t.require_communicator then
    some (t.test.communicate t.operation_timeout (toString t.port) pid)
  else none

/-- The observable steps of `Test::run`, in program order. -/
inductive RunEvent where
  | spawnProcess
  | communicatePhase
  | awaitProcess
  | logOutputFile
  | classify (result : Bool)
  | agentValidate (result : Bool)
deriving DecidableEq

/-- `Test::run` from `test_manager.rs`.  `output` is the `ProcessOutput`
the supervisor's `wait` produced for this run and `pid` the child's id.
With an empty argument vector no process is spawned and the agent
validates a dummy idle result; otherwise the communication phase (if
required) runs, output is optionally logged, the classifier
`on_validate` produces `is_not_errored`, the agent's `validate` is called
unconditionally, and the conjunction is returned.  `none` models a panic
(a classifier panic aborts the run).  The second component is the trace
of steps in program order. -/
def Test.run (t : Test) (cwd : String) (output : ProcessOutput)
    (pid : Option Int) : Option (Bool × List RunEvent) :=
  if t.cmd_args.isEmpty then
    let dummy : ProcessOutput := ⟨"", "", Except.ok 0⟩
    let confirmed := t.test.validate t.cmd_args none dummy cwd
    some (confirmed, [RunEvent.agentValidate confirmed])
  else
    let comm := t.comm_output pid
    match Test.on_validate output with
    | none => none
    | some is_not_errored =>
      let is_confirmed := t.test.validate t.cmd_args comm output cwd
      some (is_not_errored && is_confirmed,
        [RunEvent.spawnProcess]
          ++ (if t.require_communicator then [RunEvent.communicatePhase] else [])
          ++ [RunEvent.awaitProcess]
          ++ (if t.log_output then [RunEvent.logOutputFile] else [])
          ++ [RunEvent.classify is_not_errored,
              RunEvent.agentValidate is_confirmed])

/-- `IndexMap::get` on our association-list model: first entry with the
key. -/
def imGet {α : Type} (k : String) (m : List (String × α)) : Option α :=
  (m.find? (fun e => e.1 == k)).map (fun e => e.2)

/-- `IndexMap::insert`: replace in place when the key is present,
otherwise append at the end. -/
def imInsert {α : Type} (k : String) (v : α) (m : List (String × α)) :
    List (String × α) :=
  if m.any (fun e => e.1 == k) then
    m.map (fun e => if e.1 == k then (k, v) else e)
  else m ++ [(k, v)]

/-- `IndexMap::shift_remove`: drop the entry with the key, keeping the
order of the remaining entries. -/
def imShiftRemove {α : Type} (k : String) (m : List (String × α)) :
    List (String × α) :=
  m.filter (fun e => e.1 != k)

/-- `TestManager` from `test_manager.rs`: the two ordered maps (modelled
as association lists in insertion order). -/
structure TestManager where
  name : String
  startup_delay : Nat
  templates : List (String × TestTemplate)
  active_tests : List (String × Test)

/-- `TestManager::instantiate_test`: look the template up (panicking
`unwrap` when absent), instantiate it and insert the instance under the
test's name. -/
def TestManager.instantiate_test (m : TestManager) (template_name : String)
    (port : Option Nat) : Option TestManager :=
  match imGet template_name m.templates with
  | none => none
  | some tpl =>
    match tpl.instantiate port with
    | none => none
    | some test =>
      some { m with active_tests := imInsert test.name test m.active_tests }

/-- `TestManager::remove_test`. -/
def TestManager.remove_test (m : TestManager) (test_name : String) : TestManager :=
  { m with active_tests := imShiftRemove test_name m.active_tests }

/-- `TestManager::reinstantiate_test`: remove the instance, then
re-instantiate the template of the same name at the new port. -/
def TestManager.reinstantiate_test (m : TestManager) (test_name : String)
    (port : Nat) : Option TestManager :=
  (m.remove_test test_name).instantiate_test test_name (some port)

/-- `compile` from `run.rs`, at the granularity the claims need: the
token-count sanity check `panic!`s (= `none`) before any file is touched
or any command is run; otherwise the build command executes and its
stderr (`build_stderr`, a run parameter) is scanned for the literal
markers, yielding the classification string. -/
def compile (input : String) (build_stderr : String) : Option String :=
  let args := split_whitespace input
  if args.length < 5 then none
  else
    some (if strContains build_stderr "error:" then "error"
          else if strContains build_stderr "warning" then "warning"
          else "success")

/-- `check_valgrind_leaks` from `run.rs`: `log_contents` is the result of
`fs::read_to_string` (`none` = missing/unreadable file, which returns
`false` after a diagnostic message rather than raising). -/
def check_valgrind_leaks (log_contents : Option String) : Bool :=
  match log_contents with
  | none => false
  | some contents =>
    if strContains contents "ERROR SUMMARY: 0 errors from 0 contexts" then
      true
    else false

/-! ## Helper lemmas -/

theorem pipe_reader_append_of_terminated (s t : List ReadEvent)
    (h : terminated s = true) : pipe_reader (s ++ t) = pipe_reader s := by
  induction s with
  | nil => simp [terminated] at h
  | cons e rest ih =>
    cases e with
    | chunk d =>
      cases hd : d.isEmpty with
      | true => simp [pipe_reader, hd]
      | false =>
        rw [terminated, hd, Bool.false_or] at h
        simp [pipe_reader, hd, ih h]
    | fail => simp [pipe_reader]

theorem code_none_of_signal (s sg : Nat) (h : ExitStatus.signal s = some sg) :
    ExitStatus.code s = none ∧ s % 128 = sg := by
  unfold ExitStatus.signal at h
  by_cases hc : s % 128 ≠ 0 ∧ s % 128 ≠ 127
  · rw [if_pos hc] at h
    exact ⟨by unfold ExitStatus.code; rw [if_neg hc.1], Option.some.inj h⟩
  · rw [if_neg hc] at h
    exact absurd h (by simp)

/-! ## The claims -/

/-- C1: the claim says that on timeout expiry `wait` kills the child,
reaps it and reports the synthetic `TimedOut` disposition, and that the
disposition classifier then reports the run as a failure
(`notErrored = false`).  The first half holds, but the classifier does
not: `wait` stores the raw sentinel wait status `124 << 8`, from which
`ExitStatus::code()` decodes the exit code `124`, while `on_validate`
compares that decoded code against the raw sentinel `124 << 8 = 31744`
itself — the comparison can never succeed, the `Test timed out` branch is
dead, and a timed-out run is classified `true`.  This theorem evaluates
the code at the failing input. -/
theorem timeout_run_is_classified_as_ok :
    (TestSpawner.wait true (Except.ok 0) [ReadEvent.chunk ""] [ReadEvent.chunk ""]).2 =
      [WaitEvent.waitChild, WaitEvent.killChild, WaitEvent.reapChild,
       WaitEvent.joinStdout, WaitEvent.joinStderr, WaitEvent.assembleResult] ∧
    (TestSpawner.wait true (Except.ok 0) [ReadEvent.chunk ""] [ReadEvent.chunk ""]).1 =
      ⟨"", "", Except.ok Status.Timeout⟩ ∧
    ExitStatus.code Status.Timeout = some 124 ∧
    Test.on_validate ⟨"", "", Except.ok Status.Timeout⟩ = some true := by
  exact ⟨rfl, rfl, by decide, by decide⟩

/-- C4: whenever stderr contains the case-insensitive substring
`"in use"`, the classifier reports failure without looking at the
disposition — even for an `Exited(0)` status, and even for an `Err` wait
status that would otherwise panic. -/
theorem in_use_stderr_fails_first (out err : String) (st : Except String Nat)
    (h : hasInUse err = true) :
    Test.on_validate ⟨out, err, st⟩ = some false := by
  simp [Test.on_validate, h]

/-- Witness for `in_use_stderr_fails_first` at a concrete mixed-case
stderr and an `Exited(0)` disposition. -/
theorem in_use_stderr_fails_first_witness :
    Test.on_validate ⟨"", "bind: Address already IN Use", Except.ok 0⟩ = some false :=
  in_use_stderr_fails_first "" "bind: Address already IN Use" (Except.ok 0) (by decide)

/-- C8: the leak-check collaborator returns `true` exactly when the log
contents contain the literal error-summary marker, and a missing or
unreadable file yields `false` rather than an error.  The last two
conjuncts are the spec's own concrete examples. -/
theorem check_valgrind_leaks_spec :
    (∀ contents, check_valgrind_leaks (some contents) =
      strContains contents "ERROR SUMMARY: 0 errors from 0 contexts") ∧
    check_valgrind_leaks none = false ∧
    check_valgrind_leaks (some "== ERROR SUMMARY: 0 errors from 0 contexts ==") = true ∧
    check_valgrind_leaks (some "== ERROR SUMMARY: 3 errors from 2 contexts ==") = false := by
  refine ⟨fun contents => ?_, rfl, by decide, by decide⟩
  unfold check_valgrind_leaks
  cases h : strContains contents "ERROR SUMMARY: 0 errors from 0 contexts" <;> simp [h]

/-- C10: a build command with fewer than five whitespace-separated tokens
makes `compile` panic (`none`) before any file is removed or any command
is executed — the token check is the first statement of the function. -/
theorem compile_rejects_short_command (input build_stderr : String)
    (h : (split_whitespace input).length < 5) :
    compile input build_stderr = none := by
  simp [compile, h]

/-- Witness for `compile_rejects_short_command` on a four-token command. -/
theorem compile_rejects_short_command_witness :
    compile "gcc -o prog main.c" "" = none :=
  compile_rejects_short_command "gcc -o prog main.c" "" (by decide)

/-- C2: `wait` assembles the returned `ProcessOutput` only after both
drain tasks have completed — i.e. observed the zero-length end-of-stream
read (or a read error) that breaks their loop — so the captured stdout
and stderr are final: any further data on the pipes (`t`, `te`) after the
end-of-stream cannot change them.  In the await trace, both join points
strictly precede the assembly, which is the last event. -/
theorem wait_assembles_after_both_eofs (timedOut : Bool)
    (childStatus : Except String Nat) (s t se te : List ReadEvent)
    (hs : terminated s = true) (hse : terminated se = true) :
    (TestSpawner.wait timedOut childStatus (s ++ t) (se ++ te)).1.stdout = pipe_reader s ∧
    (TestSpawner.wait timedOut childStatus (s ++ t) (se ++ te)).1.stderr = pipe_reader se ∧
    (TestSpawner.wait timedOut childStatus (s ++ t) (se ++ te)).2.getLast? =
      some WaitEvent.assembleResult ∧
    WaitEvent.joinStdout ∈ (TestSpawner.wait timedOut childStatus (s ++ t) (se ++ te)).2.dropLast ∧
    WaitEvent.joinStderr ∈ (TestSpawner.wait timedOut childStatus (s ++ t) (se ++ te)).2.dropLast := by
  refine ⟨?_, ?_, ?_, ?_, ?_⟩
  · simpa [TestSpawner.wait] using pipe_reader_append_of_terminated s t hs
  · simpa [TestSpawner.wait] using pipe_reader_append_of_terminated se te hse
  · cases timedOut <;> simp [TestSpawner.wait]
  · cases timedOut <;> simp [TestSpawner.wait]
  · cases timedOut <;> simp [TestSpawner.wait]

/-- Witness for `wait_assembles_after_both_eofs`: a natural termination
whose stdout stream delivers `"ab"` then end-of-stream (with a late chunk
`"zz"` that must not be captured), and whose stderr stream ends in a read
error. -/
theorem wait_assembles_after_both_eofs_witness :
    (TestSpawner.wait false (Except.ok 0)
        ([ReadEvent.chunk "ab", ReadEvent.chunk ""] ++ [ReadEvent.chunk "zz"])
        ([ReadEvent.fail] ++ [ReadEvent.chunk "x"])).1.stdout =
      pipe_reader [ReadEvent.chunk "ab", ReadEvent.chunk ""] ∧
    (TestSpawner.wait false (Except.ok 0)
        ([ReadEvent.chunk "ab", ReadEvent.chunk ""] ++ [ReadEvent.chunk "zz"])
        ([ReadEvent.fail] ++ [ReadEvent.chunk "x"])).1.stderr =
      pipe_reader [ReadEvent.fail] ∧
    (TestSpawner.wait false (Except.ok 0)
        ([ReadEvent.chunk "ab", ReadEvent.chunk ""] ++ [ReadEvent.chunk "zz"])
        ([ReadEvent.fail] ++ [ReadEvent.chunk "x"])).2.getLast? =
      some WaitEvent.assembleResult ∧
    WaitEvent.joinStdout ∈ (TestSpawner.wait false (Except.ok 0)
        ([ReadEvent.chunk "ab", ReadEvent.chunk ""] ++ [ReadEvent.chunk "zz"])
        ([ReadEvent.fail] ++ [ReadEvent.chunk "x"])).2.dropLast ∧
    WaitEvent.joinStderr ∈ (TestSpawner.wait false (Except.ok 0)
        ([ReadEvent.chunk "ab", ReadEvent.chunk ""] ++ [ReadEvent.chunk "zz"])
        ([ReadEvent.fail] ++ [ReadEvent.chunk "x"])).2.dropLast :=
  wait_assembles_after_both_eofs false (Except.ok 0)
    [ReadEvent.chunk "ab", ReadEvent.chunk ""] [ReadEvent.chunk "zz"]
    [ReadEvent.fail] [ReadEvent.chunk "x"] (by decide) (by decide)

/-- C3: with stderr free of the `"in use"` marker, the classifier
accepts exit codes 0, 1 and 2 (the latter anomalous but not failing),
rejects termination by SIGSEGV or SIGABRT, and accepts termination by
any other signal. -/
theorem classifier_disposition_table (out err : String)
    (h : hasInUse err = false) :
    (∀ s c, ExitStatus.code s = some c → c = 0 ∨ c = 1 ∨ c = 2 →
      Test.on_validate ⟨out, err, Except.ok s⟩ = some true) ∧
    (∀ s, ExitStatus.signal s = some SIGSEGV →
      Test.on_validate ⟨out, err, Except.ok s⟩ = some false) ∧
    (∀ s, ExitStatus.signal s = some SIGABRT →
      Test.on_validate ⟨out, err, Except.ok s⟩ = some false) ∧
    (∀ s sg, ExitStatus.signal s = some sg → sg ≠ SIGSEGV → sg ≠ SIGABRT →
      Test.on_validate ⟨out, err, Except.ok s⟩ = some true) := by
  refine ⟨?_, ?_, ?_, ?_⟩
  · intro s c hc hor
    have hv : Test.on_validate ⟨out, err, Except.ok s⟩ =
        (if c = 0 ∨ c = 1 then some true
         else if c = Status.Timeout then some false else some true) := by
      simp [Test.on_validate, h, hc]
    rw [hv]
    rcases hor with rfl | rfl | rfl <;> decide
  · intro s hs
    obtain ⟨hcode, _⟩ := code_none_of_signal s SIGSEGV hs
    simp [Test.on_validate, h, hcode, hs]
  · intro s hs
    obtain ⟨hcode, _⟩ := code_none_of_signal s SIGABRT hs
    simp [Test.on_validate, h, hcode, hs, SIGSEGV, SIGABRT]
  · intro s sg hs hsegv habrt
    obtain ⟨hcode, _⟩ := code_none_of_signal s sg hs
    simp [Test.on_validate, h, hcode, hs, hsegv, habrt]

/-- Witness for `classifier_disposition_table` with empty stderr, at the
raw wait statuses for exit codes 0, 1, 2 (0, 256, 512), for SIGSEGV and
SIGABRT terminations (11, 6) and for a SIGTERM termination (15). -/
theorem classifier_disposition_table_witness :
    Test.on_validate ⟨"", "", Except.ok 0⟩ = some true ∧
    Test.on_validate ⟨"", "", Except.ok 256⟩ = some true ∧
    Test.on_validate ⟨"", "", Except.ok 512⟩ = some true ∧
    Test.on_validate ⟨"", "", Except.ok 11⟩ = some false ∧
    Test.on_validate ⟨"", "", Except.ok 6⟩ = some false ∧
    Test.on_validate ⟨"", "", Except.ok 15⟩ = some true :=
  ⟨(classifier_disposition_table "" "" (by decide)).1 0 0 (by decide) (Or.inl rfl),
   (classifier_disposition_table "" "" (by decide)).1 256 1 (by decide) (Or.inr (Or.inl rfl)),
   (classifier_disposition_table "" "" (by decide)).1 512 2 (by decide) (Or.inr (Or.inr rfl)),
   (classifier_disposition_table "" "" (by decide)).2.1 11 (by decide),
   (classifier_disposition_table "" "" (by decide)).2.2.1 6 (by decide),
   (classifier_disposition_table "" "" (by decide)).2.2.2 15 15 (by decide)
     (by decide) (by decide)⟩

/-- C5: the three instantiation-time sanity checks: a template requiring
communication cannot be instantiated without a port, cannot be
instantiated at all with a zero communication timeout, and a template
whose argument template contains the port placeholder cannot be
instantiated without a port.  All three are `panic!`s (`none`), not
runtime failures. -/
theorem instantiate_sanity_checks (t : TestTemplate) :
    (t.require_communicator = true → t.instantiate none = none) ∧
    (t.require_communicator = true → t.operation_timeout = 0 →
      ∀ port, t.instantiate port = none) ∧
    (strContains t.cmd_args_template placeholder = true →
      t.instantiate none = none) := by
  refine ⟨?_, ?_, ?_⟩
  · intro h
    simp [TestTemplate.instantiate, h]
  · intro h h0 port
    cases port with
    | none => simp [TestTemplate.instantiate, h]
    | some p => simp [TestTemplate.instantiate, h, h0]
  · intro h
    by_cases hr : t.require_communicator = true
    · simp [TestTemplate.instantiate, hr]
    · simp [TestTemplate.instantiate, hr, h]

/-- A trivial agent used by concrete witnesses: accepts everything and
exchanges nothing. -/
def trivAgent : TestAgent :=
  ⟨fun _ _ _ _ => true, fun _ _ _ => ⟨[], none⟩⟩

/-- A concrete template violating all three sanity checks at once:
requires communication, has a zero communication timeout, and carries the
port placeholder. -/
def tmplSanity : TestTemplate :=
  ⟨"sanity", "./server \x7b\x7d", fun _ => trivAgent, 5, false, false, true, 0⟩

/-- Witness for `instantiate_sanity_checks` on `tmplSanity`. -/
theorem instantiate_sanity_checks_witness :
    tmplSanity.instantiate none = none ∧
    tmplSanity.instantiate (some 8080) = none ∧
    tmplSanity.instantiate none = none :=
  ⟨(instantiate_sanity_checks tmplSanity).1 rfl,
   (instantiate_sanity_checks tmplSanity).2.1 rfl rfl (some 8080),
   (instantiate_sanity_checks tmplSanity).2.2 (by decide)⟩

theorem instantiate_some_eq (t : TestTemplate) (port : Option Nat) (test : Test)
    (h : t.instantiate port = some test) :
    test.name = t.name ∧
    test.port = port.getD 0 ∧
    test.cmd_args =
      (if t.valgrind then valgrind_args t.name else []) ++
        split_whitespace
          (if strContains t.cmd_args_template placeholder then
            str_replace_port t.cmd_args_template (toString (port.getD 0))
           else t.cmd_args_template) := by
  unfold TestTemplate.instantiate at h
  split at h
  · exact absurd h (by simp)
  · split at h
    · exact absurd h (by simp)
    · split at h
      · exact absurd h (by simp)
      · cases h
        refine ⟨rfl, rfl, ?_⟩
        cases hv : t.valgrind <;>
          cases hp : strContains t.cmd_args_template placeholder <;>
            simp [hv, hp]

/-- C6: for a template whose argument template contains the port
placeholder, `instantiate(Some(p))` substitutes every occurrence of the
placeholder with `p`'s decimal representation and tokenizes the result on
whitespace into the instance's argument vector (behind the fixed valgrind
argument block exactly when the leak-check flag is set, and behind
nothing otherwise); a template without the placeholder is tokenized
unchanged. -/
theorem instantiate_substitutes_and_tokenizes (t : TestTemplate) (p : Nat)
    (test : Test) :
    (strContains t.cmd_args_template placeholder = true →
      t.instantiate (some p) = some test →
      test.cmd_args =
        (if t.valgrind then valgrind_args t.name else []) ++
          split_whitespace (str_replace_port t.cmd_args_template (toString p))) ∧
    (strContains t.cmd_args_template placeholder = false →
      ∀ port, t.instantiate port = some test →
      test.cmd_args =
        (if t.valgrind then valgrind_args t.name else []) ++
          split_whitespace t.cmd_args_template) := by
  constructor
  · intro hp hinst
    have h3 := (instantiate_some_eq t (some p) test hinst).2.2
    simpa [hp] using h3
  · intro hp port hinst
    have h3 := (instantiate_some_eq t port test hinst).2.2
    simpa [hp] using h3

/-- A concrete template with the placeholder, no valgrind wrap and no
communication requirement, for the C6 witness. -/
def tmplSubst : TestTemplate :=
  ⟨"subst", "./server \x7b\x7d -v", fun _ => trivAgent, 5, false, false, false, 0⟩

/-- The instance `tmplSubst.instantiate (some 8080)` produces. -/
def testSubst : Test :=
  ⟨"subst", ["./server", "8080", "-v"], trivAgent, 5, false, false, 0, 8080⟩

/-- Witness for `instantiate_substitutes_and_tokenizes`: the placeholder
becomes `8080` and the string splits into three tokens. -/
theorem instantiate_substitutes_and_tokenizes_witness :
    testSubst.cmd_args =
      (if tmplSubst.valgrind then valgrind_args tmplSubst.name else []) ++
        split_whitespace
          (str_replace_port tmplSubst.cmd_args_template (toString (8080 : Nat))) :=
  (instantiate_substitutes_and_tokenizes tmplSubst 8080 testSubst).1 (by decide) rfl

/-- C7: for a run that spawns a process (non-empty argument vector) on
which the classifier does not panic, `run` returns the logical AND of the
classifier's boolean and the agent's `validate` boolean, and the agent's
`validate` step is in the trace unconditionally — also when the
classifier already reported failure (`ne = false`). -/
theorem run_returns_and_of_verdicts (t : Test) (cwd : String)
    (output : ProcessOutput) (pid : Option Int) (ne : Bool)
    (hargs : t.cmd_args.isEmpty = false)
    (hclass : Test.on_validate output = some ne) :
    ∃ tr, t.run cwd output pid =
        some (ne && t.test.validate t.cmd_args (t.comm_output pid) output cwd, tr) ∧
      RunEvent.agentValidate
          (t.test.validate t.cmd_args (t.comm_output pid) output cwd) ∈ tr := by
  have hrun : t.run cwd output pid =
      some (ne && t.test.validate t.cmd_args (t.comm_output pid) output cwd,
        [RunEvent.spawnProcess]
          ++ (if t.require_communicator then [RunEvent.communicatePhase] else [])
          ++ [RunEvent.awaitProcess]
          ++ (if t.log_output then [RunEvent.logOutputFile] else [])
          ++ [RunEvent.classify ne,
              RunEvent.agentValidate
                (t.test.validate t.cmd_args (t.comm_output pid) output cwd)]) := by
    simp [Test.run, hargs, hclass]
  exact ⟨_, hrun, by simp⟩

/-- A concrete test whose run demonstrates the C7 conjunction: the
classifier fails (stderr carries the in-use marker) while the agent's
`validate` still runs and accepts. -/
def testRunW : Test :=
  ⟨"runw", ["./prog"], trivAgent, 5, false, false, 0, 0⟩

/-- The process output used by the C7 witness: the in-use marker makes
the classifier report failure. -/
def outputRunW : ProcessOutput :=
  ⟨"", "address already in use", Except.ok 0⟩

/-- Witness for `run_returns_and_of_verdicts`: the classifier has already
failed (`ne = false`), the agent's validation still appears in the trace,
and the returned verdict is the AND. -/
theorem run_returns_and_of_verdicts_witness :
    ∃ tr, testRunW.run "cwd" outputRunW none =
        some (false && testRunW.test.validate testRunW.cmd_args
          (testRunW.comm_output none) outputRunW "cwd", tr) ∧
      RunEvent.agentValidate
          (testRunW.test.validate testRunW.cmd_args
            (testRunW.comm_output none) outputRunW "cwd") ∈ tr :=
  run_returns_and_of_verdicts testRunW "cwd" outputRunW none false
    (by decide) (by decide)

theorem imShiftRemove_no_key {α : Type} (n : String) (m : List (String × α)) :
    ((imShiftRemove n m).any (fun e => e.1 == n)) = false := by
  rw [Bool.eq_false_iff]
  intro hcontra
  rw [List.any_eq_true] at hcontra
  obtain ⟨e, he, heq⟩ := hcontra
  rw [imShiftRemove, List.mem_filter] at he
  have h1 : e.1 = n := by simpa using heq
  have h2 : ¬ e.1 = n := by simpa using he.2
  exact h2 h1

theorem imGet_append_self {α : Type} (n : String) (v : α)
    (l : List (String × α)) (h : (l.any (fun e => e.1 == n)) = false) :
    imGet n (l ++ [(n, v)]) = some v := by
  induction l with
  | nil => simp [imGet, List.find?]
  | cons e rest ih =>
    rw [List.any_cons, Bool.or_eq_false_iff] at h
    simpa [imGet, List.find?, h.1] using ih h.2

theorem length_imShiftRemove {α : Type} (n : String) (m : List (String × α))
    (hnodup : (m.map Prod.fst).Nodup) (h : (imGet n m).isSome = true) :
    (imShiftRemove n m).length + 1 = m.length := by
  induction m with
  | nil => simp [imGet] at h
  | cons e rest ih =>
    rw [List.map_cons, List.nodup_cons] at hnodup
    cases heq : (e.1 == n) with
    | true =>
      have hrest : imShiftRemove n rest = rest := by
        apply List.filter_eq_self.mpr
        intro a ha
        have hne : a.1 ≠ e.1 := by
          intro hcontra
          exact hnodup.1 (hcontra ▸ List.mem_map_of_mem Prod.fst ha)
        have : a.1 ≠ n := fun hc => hne (by rw [hc, eq_of_beq heq])
        simpa using this
      have hpe : (e.1 != n) = false := by simp [bne, heq]
      rw [imShiftRemove] at hrest
      rw [imShiftRemove, List.filter_cons, if_neg (by simp [hpe]), hrest,
        List.length_cons]
    | false =>
      have h' : (imGet n rest).isSome = true := by
        simpa [imGet, List.find?, heq] using h
      have hlen := ih hnodup.2 h'
      have hpe : (e.1 != n) = true := by simp [bne, heq]
      simp only [imShiftRemove, List.filter_cons, hpe, if_true,
        List.length_cons] at hlen ⊢
      omega

/-- C9: from a manager state whose active set contains an instance named
`n` with pairwise-distinct instance names, whose template registry maps
`n` to a template of that name, and for which re-instantiation at the new
port succeeds, `reinstantiate_test n p` removes the prior instance named
`n`, appends a fresh instance of that name bound to port `p`, and leaves
the number of active test instances unchanged. -/
theorem reinstantiate_replaces_and_preserves_count (m : TestManager)
    (n : String) (p : Nat) (tpl : TestTemplate) (newTest : Test)
    (hnodup : (m.active_tests.map Prod.fst).Nodup)
    (hactive : (imGet n m.active_tests).isSome = true)
    (htpl : imGet n m.templates = some tpl)
    (hname : tpl.name = n)
    (hinst : tpl.instantiate (some p) = some newTest) :
    ∃ m', m.reinstantiate_test n p = some m' ∧
      m'.active_tests = imShiftRemove n m.active_tests ++ [(n, newTest)] ∧
      imGet n m'.active_tests = some newTest ∧
      newTest.port = p ∧
      m'.active_tests.length = m.active_tests.length := by
  have hnm : newTest.name = n := by
    rw [(instantiate_some_eq tpl (some p) newTest hinst).1, hname]
  have hport : newTest.port = p := by
    simpa using (instantiate_some_eq tpl (some p) newTest hinst).2.1
  have hkey := imShiftRemove_no_key n m.active_tests
  have hins : imInsert newTest.name newTest (imShiftRemove n m.active_tests) =
      imShiftRemove n m.active_tests ++ [(n, newTest)] := by
    rw [hnm]
    simp [imInsert, hkey]
  refine ⟨⟨m.name, m.startup_delay, m.templates,
    imShiftRemove n m.active_tests ++ [(n, newTest)]⟩, ?_, rfl, ?_, hport, ?_⟩
  · simp [TestManager.reinstantiate_test, TestManager.remove_test,
      TestManager.instantiate_test, htpl, hinst, hins]
  · exact imGet_append_self n newTest _ hkey
  · have := length_imShiftRemove n m.active_tests hnodup hactive
    simp only [List.length_append, List.length_cons, List.length_nil]
    omega

/-- Template for the C9 witness. -/
def tmplRei : TestTemplate :=
  ⟨"rei", "./app \x7b\x7d", fun _ => trivAgent, 3, false, false, false, 0⟩

/-- The prior active instance of the C9 witness, bound to port 1. -/
def testReiOld : Test :=
  ⟨"rei", ["./app", "1"], trivAgent, 3, false, false, 0, 1⟩

/-- The replacement instance of the C9 witness, bound to port 2. -/
def testReiNew : Test :=
  ⟨"rei", ["./app", "2"], trivAgent, 3, false, false, 0, 2⟩

/-- Manager state for the C9 witness: one registered template and one
active instance, both named `rei`. -/
def mgrRei : TestManager :=
  ⟨"mgr", 0, [("rei", tmplRei)], [("rei", testReiOld)]⟩

/-- Witness for `reinstantiate_replaces_and_preserves_count` on the
concrete one-test manager `mgrRei`, retried at port 2. -/
theorem reinstantiate_replaces_and_preserves_count_witness :
    ∃ m', mgrRei.reinstantiate_test "rei" 2 = some m' ∧
      m'.active_tests = imShiftRemove "rei" mgrRei.active_tests ++ [("rei", testReiNew)] ∧
      imGet "rei" m'.active_tests = some testReiNew ∧
      testReiNew.port = 2 ∧
      m'.active_tests.length = mgrRei.active_tests.length :=
  reinstantiate_replaces_and_preserves_count mgrRei "rei" 2 tmplRei testReiNew
    (by decide) (by decide) rfl rfl rfl
